import Mathlib

/-!
Verification of the e-commerce backend's pricing, coupon, order and
cancellation logic.  The definitions below are a shallow embedding of the
JavaScript source: money is modelled as `ℚ`, stock counters and timestamps
as `ℤ`, nullable fields as `Option`, thrown errors as `Except`.
JavaScript truthiness on numbers (`x &&`, `x ||`) is modelled explicitly
(`0` and `null` are falsy).
-/

namespace Shop

attribute [local semireducible] Rat.mul Rat.inv Rat.add Rat.sub

/-- `updateFirst p f l` replaces the first element of `l` satisfying `p`
with its image under `f`; it models a Mongoose `find`-then-mutate-then-save
on a collection. -/
def updateFirst (p : α → Bool) (f : α → α) : List α → List α
  | [] => []
  | x :: xs => if p x then f x :: xs else x :: updateFirst p f xs

/-- `Math.min`, written as a conditional so that concrete runs reduce. -/
def jsMin {α : Type} [LE α] [DecidableRel (α := α) (· ≤ ·)] (a b : α) : α :=
  if a ≤ b then a else b

/-! ## Data model (src/models) -/

/-- A product variant (src/models/Product.js, variantSchema). -/
structure Variant where
  sku : String
  price : ℚ
  stock : ℤ
deriving DecidableEq

/-- The fields of a product that the pricing/order logic reads
(src/models/Product.js). -/
structure Product where
  pid : ℕ
  name : String
  price : ℚ
  sku : String
  isActive : Bool
  isOnSale : Bool
  salePrice : Option ℚ
  saleStart : Option ℤ
  saleEnd : Option ℤ
  stock : ℤ
  soldCount : ℤ
  variants : List Variant
deriving DecidableEq

/-- The catalog store: a list of products, looked up by id. -/
def Catalog := List Product
deriving DecidableEq

/-- Coupon discount type (src/models/Coupon.js). -/
inductive DiscountType
  | percentage
  | fixed
deriving DecidableEq

/-- A coupon (src/models/Coupon.js).  `maxDiscount` and `usageLimit`
default to `null` in the schema, hence `Option`. -/
structure Coupon where
  code : String
  discountType : DiscountType
  discountValue : ℚ
  minPurchase : ℚ
  maxDiscount : Option ℚ
  startDate : ℤ
  endDate : ℤ
  usageLimit : Option ℤ
  usedCount : ℤ
  isActive : Bool
deriving DecidableEq

/-- Errors thrown by coupon validation (src/models/Coupon.js,
`calculateDiscount`). -/
inductive CouponErr
  | belowMinimumPurchase
  | couponNotValid
deriving DecidableEq

/-- `isActiveNow` virtual (src/models/Coupon.js lines 100-107):
active flag, validity window, and usage-exhaustion check. -/
def isActiveNow (cp : Coupon) (now : ℤ) : Bool :=
  cp.isActive && decide (cp.startDate ≤ now) && decide (now ≤ cp.endDate) &&
    (match cp.usageLimit with
     | none => true
     | some u => decide (cp.usedCount < u))

/-- `calculateDiscount` (src/models/Coupon.js lines 115-137).  The guard
`this.maxDiscount && discount > this.maxDiscount` uses JS truthiness:
a `null` or `0` cap is skipped. -/
def calculateDiscount (cp : Coupon) (now : ℤ) (totalAmount : ℚ) :
    Except CouponErr ℚ :=
  if totalAmount < cp.minPurchase then .error .belowMinimumPurchase
  else if isActiveNow cp now = false then .error .couponNotValid
  else
    let discount : ℚ :=
      if cp.discountType = .percentage then
        let d := totalAmount * cp.discountValue / 100
        match cp.maxDiscount with
        | some m => if m ≠ 0 ∧ d > m then m else d
        | none => d
      else cp.discountValue
    .ok (jsMin discount totalAmount)

/-- The query filter of `getActiveCoupons`
(src/controllers/couponController.js lines 46-58): note it tests
`usageLimit > 0`, not `usedCount < usageLimit`. -/
def activeCouponFilter (now : ℤ) (cp : Coupon) : Bool :=
  cp.isActive && decide (cp.startDate ≤ now) && decide (now ≤ cp.endDate) &&
    (match cp.usageLimit with
     | none => true
     | some u => decide (0 < u))

/-- The public active-coupons listing
(src/controllers/couponController.js, `getActiveCoupons`). -/
def getActiveCoupons (coupons : List Coupon) (now : ℤ) : List Coupon :=
  coupons.filter (activeCouponFilter now)

/-! ## Pricing primitives -/

/-- `currentPrice` virtual (src/models/Product.js lines 202-207):
`this.isOnSale && this.salePrice ? this.salePrice : this.price`.
A sale price of `0` is falsy in JS. -/
def currentPrice (p : Product) : ℚ :=
  match p.salePrice with
  | some v => if p.isOnSale ∧ v ≠ 0 then v else p.price
  | none => p.price

/-- JavaScript `a || b` on numbers: `a` unless `a` is `0`. -/
def jsOr (a b : ℚ) : ℚ := if a = 0 then b else a

/-- The sale-price override in `getCart`
(src/controllers/cartController.js lines 41-44):
`product.isOnSale && product.salePrice ? product.salePrice : variantPrice`. -/
def cartSalePrice (p : Product) (variantPrice : ℚ) : ℚ :=
  match p.salePrice with
  | some v => if p.isOnSale ∧ v ≠ 0 then v else variantPrice
  | none => variantPrice

/-- Modelled from the spec (§4.1), not from the source: the spec's sale
window test — "no sale window or now falls within [saleStart, saleEnd]".
No function in the pricing paths of the source consults the window; this
definition exists only to compare the spec's claimed price resolution
with the code's. -/
def specSaleWindowOk (p : Product) (now : ℤ) : Bool :=
  match p.saleStart, p.saleEnd with
  | none, none => true
  | s?, e? =>
      (match s? with | some s => decide (s ≤ now) | none => true) &&
      (match e? with | some e => decide (now ≤ e) | none => true)

/-- Modelled from the spec (§4.1), not from the source: "if
product.isOnSale is true AND a sale price is set AND (no sale window or
now falls within [saleStart, saleEnd]) → sale price; else variant.price if
a variant is selected, else product.price". -/
def specUnitPrice (p : Product) (matchedVariant : Option Variant) (now : ℤ) : ℚ :=
  if p.isOnSale ∧ p.salePrice.isSome ∧ specSaleWindowOk p now then
    p.salePrice.getD 0
  else
    match matchedVariant with
    | some v => v.price
    | none => p.price

/-! ## Cart (src/controllers/cartController.js) -/

/-- One entry of a user's cart: product reference, optional variant
selector (by SKU) and requested quantity. -/
structure CartItem where
  productId : ℕ
  variantSku : Option String
  quantity : ℤ
deriving DecidableEq

/-- The per-item fields recomputed by `getCart`. -/
structure CartLineResult where
  price : ℚ
  total : ℚ
  quantity : ℤ
  inStock : Bool
deriving DecidableEq

/-- The per-item body of the `getCart` loop
(src/controllers/cartController.js lines 21-57).  A missing or inactive
product is skipped (`none`).  An unmatched variant selector silently
keeps the product-level stock and price (the `if (variant)` has no else
branch), then the sale price may override, and the quantity is clamped
to the available stock. -/
def cartLineView (c : Catalog) (it : CartItem) : Option CartLineResult :=
  match c.find? (fun p => p.pid = it.productId) with
  | none => none
  | some p =>
    if p.isActive = false then none
    else
      let resolved : ℤ × ℚ :=
        match it.variantSku with
        | some s =>
          if p.variants.isEmpty then (p.stock, p.price)
          else
            match p.variants.find? (fun v => v.sku = s) with
            | some v => (v.stock, v.price)
            | none => (p.stock, p.price)
        | none => (p.stock, p.price)
      let availableStock := resolved.1
      let price := cartSalePrice p resolved.2
      let quantity := jsMin it.quantity availableStock
      some ⟨price, price * quantity, quantity, decide (0 < quantity)⟩

/-- The summary block returned by `getCart`. -/
structure CartSummary where
  subtotal : ℚ
  shipping : ℚ
  tax : ℚ
  total : ℚ
  totalItems : ℤ
deriving DecidableEq

/-- The subtotal/totalItems accumulation of the `getCart` loop
(src/controllers/cartController.js lines 17-57). -/
def cartSubtotal (c : Catalog) (items : List CartItem) : ℚ × ℤ :=
  items.foldl
    (fun (acc : ℚ × ℤ) it =>
      match cartLineView c it with
      | none => acc
      | some r => (acc.1 + r.total, acc.2 + r.quantity)) (0, 0)

/-- `getCart` totals (src/controllers/cartController.js lines 17-65):
subtotal over non-skipped lines, then
`shipping = subtotal > 50 ? 0 : 10` and `tax = subtotal * 0.08`. -/
def getCartSummary (c : Catalog) (items : List CartItem) : CartSummary :=
  let subtotal := (cartSubtotal c items).1
  let shipping : ℚ := if subtotal > 50 then 0 else 10
  let tax := subtotal * (8 / 100)
  ⟨subtotal, shipping, tax, subtotal + shipping + tax, (cartSubtotal c items).2⟩

/-! ## Order assembly (src/unnamed/part_002, `createOrder`) -/

/-- Domain errors surfaced by order assembly and add-to-cart. -/
inductive OrderErr
  | productNotFound (pid : ℕ)
  | variantNotFound (sku : String)
  | insufficientStock (name : String) (available : ℤ)
  | noItems
deriving DecidableEq

/-- One requested line of an order-creation request. -/
structure OrderLine where
  productId : ℕ
  variantSku : Option String
  quantity : ℤ
deriving DecidableEq

/-- The immutable per-line snapshot stored on the order.  The stored
`variant` is reduced to its SKU, which is all the cancellation path
reads back. -/
structure OrderItem where
  productId : ℕ
  name : String
  price : ℚ
  quantity : ℤ
  variant : Option String
  sku : String
  total : ℚ
deriving DecidableEq

/-- Stock/price/SKU resolution inside the `createOrder` loop
(src/unnamed/part_002 lines 41-57): defaults come from the product
(`product.currentPrice || product.price`); the variant branch runs only
when a selector is supplied AND the product's variant list is nonempty,
and errors when no variant matches. -/
def resolveLine (p : Product) (vsel : Option String) :
    Except OrderErr (ℤ × ℚ × String) :=
  match vsel with
  | none => .ok (p.stock, jsOr (currentPrice p) p.price, p.sku)
  | some s =>
    if p.variants.isEmpty then .ok (p.stock, jsOr (currentPrice p) p.price, p.sku)
    else
      match p.variants.find? (fun v => v.sku = s) with
      | none => .error (.variantNotFound s)
      | some v => .ok (v.stock, v.price, v.sku)

/-- The stock mutation of one `createOrder` line
(src/unnamed/part_002 lines 82-94): decrement the matching variant's
stock if the request line carried a variant (no-op when none matches),
else the product's stock; always add the quantity to `soldCount`. -/
def decrementProduct (vsel : Option String) (q : ℤ) (p : Product) : Product :=
  match vsel with
  | some s =>
    { p with
      variants := updateFirst (fun v => v.sku = s)
        (fun v => { v with stock := v.stock - q }) p.variants
      soldCount := p.soldCount + q }
  | none => { p with stock := p.stock - q, soldCount := p.soldCount + q }

/-- One iteration of the `createOrder` item loop
(src/unnamed/part_002 lines 30-95): look up the product, resolve
stock/price/SKU, fail with `insufficientStock` when the available stock
is below the requested quantity, otherwise build the order-item snapshot
and persist the stock decrement. -/
def processLine (c : Catalog) (l : OrderLine) :
    Except OrderErr (Catalog × OrderItem) :=
  match c.find? (fun p => p.pid = l.productId) with
  | none => .error (.productNotFound l.productId)
  | some p =>
    if p.isActive = false then .error (.productNotFound l.productId)
    else
      match resolveLine p l.variantSku with
      | .error e => .error e
      | .ok (availableStock, variantPrice, variantSku) =>
        if availableStock < l.quantity then
          .error (.insufficientStock p.name availableStock)
        else
          .ok (updateFirst (fun p' => p'.pid = l.productId)
                 (decrementProduct l.variantSku l.quantity) c,
               { productId := l.productId
                 name := p.name
                 price := variantPrice
                 quantity := l.quantity
                 variant := l.variantSku.map (fun _ => variantSku)
                 sku := variantSku
                 total := variantPrice * l.quantity })

/-- The whole `createOrder` item loop.  Each successful line's stock
decrement is saved immediately, so on a failing line the catalog changes
of the previous lines persist: the function returns the catalog in every
case, alongside the items and accumulated `itemsPrice` on success. -/
def processItems : List OrderLine → Catalog →
    Catalog × Except OrderErr (List OrderItem × ℚ)
  | [], c => (c, .ok ([], 0))
  | l :: ls, c =>
    match processLine c l with
    | .error e => (c, .error e)
    | .ok (c₁, it) =>
      match processItems ls c₁ with
      | (c', .error e) => (c', .error e)
      | (c', .ok (its, ip)) => (c', .ok (it :: its, it.total + ip))

/-- Order status (src/models/Order.js, `orderStatus` enum). -/
inductive OrderStatus
  | pending
  | confirmed
  | processing
  | shipped
  | delivered
  | cancelled
  | refunded
deriving DecidableEq

/-- One record of the append-only `statusHistory` log
(src/models/Order.js lines 139-146). -/
structure HistoryEntry where
  status : OrderStatus
  timestamp : ℤ
  note : String
deriving DecidableEq

/-- The order fields relevant to pricing and lifecycle
(src/models/Order.js). -/
structure Order where
  items : List OrderItem
  itemsPrice : ℚ
  shippingPrice : ℚ
  taxPrice : ℚ
  totalPrice : ℚ
  coupon : Option (String × ℚ)
  orderStatus : OrderStatus
  statusHistory : List HistoryEntry
  cancelledAt : Option ℤ
  cancelledReason : String
  deliveredAt : Option ℤ
deriving DecidableEq

/-- `createOrder` (src/unnamed/part_002 lines 9-159): process the lines,
then `shipping = itemsPrice > 50 ? 0 : 10`, `tax = itemsPrice * 0.08`,
and — when a coupon code is supplied — subtract a simulated 10% of
`itemsPrice` ("Here you would validate and apply coupon. For now, we'll
simulate a 10% discount"); the coupon entity is never consulted.  The
new order starts `pending`; the save hook records the initial status. -/
def createOrder (c : Catalog) (lines : List OrderLine)
    (couponCode : Option String) (now : ℤ) :
    Catalog × Except OrderErr Order :=
  if lines.isEmpty then (c, .error .noItems)
  else
    match processItems lines c with
    | (c', .error e) => (c', .error e)
    | (c', .ok (items, itemsPrice)) =>
      let shippingPrice : ℚ := if itemsPrice > 50 then 0 else 10
      let taxPrice := itemsPrice * (8 / 100)
      let base := itemsPrice + shippingPrice + taxPrice
      let discounted : ℚ × Option (String × ℚ) :=
        match couponCode with
        | some code => (base - itemsPrice * (1 / 10), some (code, itemsPrice * (1 / 10)))
        | none => (base, none)
      (c', .ok
        { items := items
          itemsPrice := itemsPrice
          shippingPrice := shippingPrice
          taxPrice := taxPrice
          totalPrice := discounted.1
          coupon := discounted.2
          orderStatus := .pending
          statusHistory := [⟨.pending, now, "Status updated"⟩]
          cancelledAt := none
          cancelledReason := ""
          deliveredAt := none })

/-- The stock-check portion of `addToCart`
(src/controllers/cartController.js lines 92-129).  Note the default
price here is the plain `product.price` (no sale override), and an
unmatched variant selector with a nonempty variant list is a hard
error. -/
def addToCartCheck (c : Catalog) (productId : ℕ) (qty : ℤ)
    (vsel : Option String) : Except OrderErr (ℤ × ℚ × String) :=
  match c.find? (fun p => p.pid = productId) with
  | none => .error (.productNotFound productId)
  | some p =>
    if p.isActive = false then .error (.productNotFound productId)
    else
      let resolved : Except OrderErr (ℤ × ℚ × String) :=
        match vsel with
        | none => .ok (p.stock, p.price, p.sku)
        | some s =>
          if p.variants.isEmpty then .ok (p.stock, p.price, p.sku)
          else
            match p.variants.find? (fun v => v.sku = s) with
            | none => .error (.variantNotFound s)
            | some v => .ok (v.stock, v.price, v.sku)
      match resolved with
      | .error e => .error e
      | .ok (availableStock, variantPrice, variantSku) =>
        if availableStock < qty then
          .error (.insufficientStock p.name availableStock)
        else .ok (availableStock, variantPrice, variantSku)

/-! ## Order lifecycle (src/models/Order.js, src/unnamed/part_002) -/

/-- Lifecycle errors. -/
inductive CancelErr
  | invalidTransition
deriving DecidableEq

/-- The status-history part of the `pre('save')` hook
(src/models/Order.js lines 179-185): when `orderStatus` differs from
its stored value, append one `{status, timestamp, note}` record, the
note being the cancellation reason for `cancelled` and a fixed message
otherwise. -/
def orderPreSave (storedStatus : OrderStatus) (o : Order) (now : ℤ) : Order :=
  if o.orderStatus ≠ storedStatus then
    { o with statusHistory := o.statusHistory ++
        [⟨o.orderStatus, now,
          if o.orderStatus = .cancelled then o.cancelledReason
          else "Status updated"⟩] }
  else o

/-- `updateOrderStatus` (src/unnamed/part_002 lines 311-353): set the
new status unconditionally (no transition validation exists), stamp
`deliveredAt` for `delivered`, then save (which appends the history
record). -/
def updateOrderStatus (o : Order) (newStatus : OrderStatus) (now : ℤ) : Order :=
  let o₁ := { o with orderStatus := newStatus }
  let o₂ := if newStatus = .delivered then { o₁ with deliveredAt := some now } else o₁
  orderPreSave o.orderStatus o₂ now

/-- The per-product mutation of the cancellation stock-restore loop
(src/unnamed/part_002 lines 386-400): add the quantity back to the
stored variant's stock (no-op when the SKU no longer matches) or to the
product's stock, and subtract it from `soldCount`. -/
def restoreProduct (it : OrderItem) (p : Product) : Product :=
  match it.variant with
  | some s =>
    { p with
      variants := updateFirst (fun v => v.sku = s)
        (fun v => { v with stock := v.stock + it.quantity }) p.variants
      soldCount := p.soldCount - it.quantity }
  | none => { p with stock := p.stock + it.quantity, soldCount := p.soldCount - it.quantity }

/-- One iteration of the restore loop: look the product up by id
(skipped entirely when it no longer exists) and persist the restored
counters. -/
def cancelRestore (c : Catalog) (it : OrderItem) : Catalog :=
  match c.find? (fun p => p.pid = it.productId) with
  | none => c
  | some _ => updateFirst (fun p => p.pid = it.productId) (restoreProduct it) c

/-- `cancelOrder` (src/unnamed/part_002 lines 358-414): reject unless
the order is `pending` or `confirmed`; otherwise mark it cancelled
(recording reason and timestamp, and appending the history record via
the save hook) and restore every line's stock/soldCount. -/
def cancelOrderOp (c : Catalog) (o : Order) (reason : String) (now : ℤ) :
    Except CancelErr (Catalog × Order) :=
  if o.orderStatus = .pending ∨ o.orderStatus = .confirmed then
    let o₁ := orderPreSave o.orderStatus
      { o with orderStatus := .cancelled, cancelledAt := some now,
               cancelledReason := reason } now
    .ok (o.items.foldl cancelRestore c, o₁)
  else .error .invalidTransition

instance : DecidableEq Catalog := inferInstanceAs (DecidableEq (List Product))

instance {ε α : Type} [DecidableEq ε] [DecidableEq α] : DecidableEq (Except ε α)
  | .ok a, .ok b =>
    if h : a = b then isTrue (by rw [h]) else isFalse (by simp [h])
  | .ok _, .error _ => isFalse (fun h => Except.noConfusion h)
  | .error _, .ok _ => isFalse (fun h => Except.noConfusion h)
  | .error a, .error b =>
    if h : a = b then isTrue (by rw [h]) else isFalse (by simp [h])

/-! ## Concrete fixtures used by the counterexamples and witnesses -/

/-- A plain product with stock 10. -/
def fxP1 : Product := ⟨1, "P1", 3, "SKU1", true, false, none, none, none, 10, 0, []⟩

/-- A plain product with stock 1. -/
def fxP2 : Product := ⟨2, "P2", 4, "SKU2", true, false, none, none, none, 1, 0, []⟩

/-- A $100 product with stock 10. -/
def fxGadget : Product :=
  ⟨1, "Gadget", 100, "SKU1", true, false, none, none, none, 10, 0, []⟩

/-- `fxGadget` after one unit is sold. -/
def fxGadgetAfter : Product :=
  ⟨1, "Gadget", 100, "SKU1", true, false, none, none, none, 9, 1, []⟩

/-- The order-item snapshot for one `fxGadget`. -/
def fxOrderItemGadget : OrderItem := ⟨1, "Gadget", 100, 1, none, "SKU1", 100⟩

/-- The order produced by buying one `fxGadget` without a coupon. -/
def fxOrderGadget : Order :=
  ⟨[fxOrderItemGadget], 100, 0, 8, 108, none, .pending,
    [⟨.pending, 0, "Status updated"⟩], none, "", none⟩

/-- The order produced by buying one `fxGadget` with coupon code "SAVE5". -/
def fxOrderSave5 : Order :=
  ⟨[fxOrderItemGadget], 100, 0, 8, 98, some ("SAVE5", 10), .pending,
    [⟨.pending, 0, "Status updated"⟩], none, "", none⟩

/-- A fixed $5-off coupon, active on `[0, 100]`, no minimum purchase. -/
def fxCouponSave5 : Coupon := ⟨"SAVE5", .fixed, 5, 0, none, 0, 100, none, 0, true⟩

/-- A $25 product. -/
def fxItem25 : Product := ⟨1, "Item", 25, "SKU1", true, false, none, none, none, 10, 0, []⟩

/-- A $49.99 product. -/
def fxItem4999 : Product :=
  ⟨1, "Item", 4999 / 100, "SKU1", true, false, none, none, none, 10, 0, []⟩

/-- A product flagged on sale at $5 (base price $20) with a sale window
`[0, 10]` that has already closed at time 20. -/
def fxSaleItem : Product :=
  ⟨1, "SaleItem", 20, "SKU1", true, true, some 5, some 0, some 10, 10, 0, []⟩

/-- A $20 product with one variant whose SKU is "A". -/
def fxVarItem : Product :=
  ⟨1, "VarItem", 20, "PSKU", true, false, none, none, none, 3, 0, [⟨"A", 7, 5⟩]⟩

/-- A $20 product with an empty variants list. -/
def fxNoVarItem : Product :=
  ⟨1, "Plain", 20, "PSKU", true, false, none, none, none, 3, 0, []⟩

/-- A percentage coupon with a negative `maxDiscount` cap. -/
def fxCouponNeg : Coupon :=
  ⟨"NEG", .percentage, 10, 0, some (-5), 0, 100, none, 0, true⟩

/-- A 20% coupon whose `maxDiscount` is set to 0. -/
def fxCouponZeroCap : Coupon :=
  ⟨"ZERO", .percentage, 20, 0, some 0, 0, 100, none, 0, true⟩

/-- A 20% coupon capped at $30 (the spec's worked example). -/
def fxCouponCap30 : Coupon :=
  ⟨"CAP30", .percentage, 20, 0, some 30, 0, 100, none, 0, true⟩

/-- A usage-exhausted coupon: limit 5, used 5, otherwise active on
`[0, 100]`. -/
def fxCouponUsed : Coupon :=
  ⟨"USED", .percentage, 10, 0, none, 0, 100, some 5, 5, true⟩

/-! ## Generic lemmas -/

theorem jsMin_eq_min {α : Type} [LinearOrder α] (a b : α) :
    jsMin a b = min a b := (min_def a b).symm

/-! ## Generic lemmas about `updateFirst` -/

theorem updateFirst_of_find?_none {p : α → Bool} {f : α → α} {l : List α}
    (h : l.find? p = none) : updateFirst p f l = l := by
  induction l with
  | nil => rfl
  | cons x xs ih =>
    rw [List.find?_cons] at h
    cases hx : p x with
    | true => rw [hx] at h; exact absurd h (by simp)
    | false =>
      rw [hx] at h
      simp only [updateFirst, hx, Bool.false_eq_true, if_false, ih h]

theorem updateFirst_updateFirst {p : α → Bool} {f g : α → α} (l : List α)
    (hf : ∀ x, p (f x) = p x) :
    updateFirst p g (updateFirst p f l) = updateFirst p (fun x => g (f x)) l := by
  induction l with
  | nil => rfl
  | cons x xs ih =>
    cases hx : p x with
    | true => simp only [updateFirst, hx, if_true, hf x]
    | false => simp only [updateFirst, hx, Bool.false_eq_true, if_false, ih]

theorem updateFirst_id {p : α → Bool} {f : α → α} (l : List α)
    (hf : ∀ x, f x = x) : updateFirst p f l = l := by
  induction l with
  | nil => rfl
  | cons x xs ih =>
    cases hx : p x with
    | true => simp only [updateFirst, hx, if_true, hf x]
    | false => simp only [updateFirst, hx, Bool.false_eq_true, if_false, ih]

theorem updateFirst_eq_self_of_find? {p : α → Bool} {f : α → α} {l : List α}
    {x : α} (h : l.find? p = some x) (hx : f x = x) : updateFirst p f l = l := by
  induction l with
  | nil => exact absurd h (by simp)
  | cons y ys ih =>
    rw [List.find?_cons] at h
    cases hy : p y with
    | true =>
      rw [hy] at h
      simp only [if_true] at h
      obtain rfl : y = x := by injection h
      simp only [updateFirst, hy, if_true, hx]
    | false =>
      rw [hy] at h
      simp only [Bool.false_eq_true, if_false] at h
      simp only [updateFirst, hy, Bool.false_eq_true, if_false, ih h]

theorem updateFirst_comm {p₁ p₂ : α → Bool} {f₁ f₂ : α → α} (l : List α)
    (h₁ : ∀ x, p₁ (f₂ x) = p₁ x) (h₂ : ∀ x, p₂ (f₁ x) = p₂ x)
    (hc : ∀ x, f₁ (f₂ x) = f₂ (f₁ x)) :
    updateFirst p₁ f₁ (updateFirst p₂ f₂ l) =
      updateFirst p₂ f₂ (updateFirst p₁ f₁ l) := by
  induction l with
  | nil => rfl
  | cons x xs ih =>
    cases hx₁ : p₁ x with
    | true =>
      cases hx₂ : p₂ x with
      | true =>
        simp only [updateFirst, hx₁, hx₂, if_true, h₁ x, h₂ x, hc x]
      | false =>
        simp only [updateFirst, hx₁, hx₂, if_true, Bool.false_eq_true, if_false,
          h₂ x]
    | false =>
      cases hx₂ : p₂ x with
      | true =>
        simp only [updateFirst, hx₁, hx₂, if_true, Bool.false_eq_true, if_false,
          h₁ x]
      | false =>
        simp only [updateFirst, hx₁, hx₂, Bool.false_eq_true, if_false, ih]

theorem foldl_comm_move {f : β → α → β}
    (hf : ∀ c a b, f (f c a) b = f (f c b) a) (c : β) (a : α) (xs : List α) :
    List.foldl f (f c a) xs = f (List.foldl f c xs) a := by
  induction xs generalizing c with
  | nil => rfl
  | cons x xs ih => rw [List.foldl_cons, List.foldl_cons, hf, ih]

/-! ## Cancellation inverts order creation -/

theorem decrementProduct_pid (vsel : Option String) (q : ℤ) (p : Product) :
    (decrementProduct vsel q p).pid = p.pid := by
  cases vsel <;> simp [decrementProduct]

theorem restoreProduct_pid (it : OrderItem) (p : Product) :
    (restoreProduct it p).pid = p.pid := by
  cases h : it.variant <;> simp [restoreProduct, h]

theorem variantBump_comm (s₁ s₂ : String) (q₁ q₂ : ℤ) (vs : List Variant) :
    updateFirst (fun v => v.sku = s₁) (fun v => { v with stock := v.stock + q₁ })
      (updateFirst (fun v => v.sku = s₂)
        (fun v => { v with stock := v.stock + q₂ }) vs) =
    updateFirst (fun v => v.sku = s₂) (fun v => { v with stock := v.stock + q₂ })
      (updateFirst (fun v => v.sku = s₁)
        (fun v => { v with stock := v.stock + q₁ }) vs) := by
  apply updateFirst_comm
  · intro x; rfl
  · intro x; rfl
  · intro x; cases x; simp [Variant.mk.injEq]; omega

theorem restoreProduct_comm (a b : OrderItem) (p : Product) :
    restoreProduct a (restoreProduct b p) = restoreProduct b (restoreProduct a p) := by
  cases ha : a.variant with
  | none =>
    cases hb : b.variant with
    | none => cases p; simp [restoreProduct, ha, hb, Product.mk.injEq]; omega
    | some sb => cases p; simp [restoreProduct, ha, hb, Product.mk.injEq]; omega
  | some sa =>
    cases hb : b.variant with
    | none => cases p; simp [restoreProduct, ha, hb, Product.mk.injEq]; omega
    | some sb =>
      cases p
      simp [restoreProduct, ha, hb, Product.mk.injEq]
      refine ⟨by omega, ?_⟩
      exact variantBump_comm sa sb a.quantity b.quantity _

theorem cancelRestore_eq_updateFirst (c : Catalog) (it : OrderItem) :
    cancelRestore c it =
      updateFirst (fun p => p.pid = it.productId) (restoreProduct it) c := by
  unfold cancelRestore
  cases h : List.find? (fun p => p.pid = it.productId) c with
  | none => exact (updateFirst_of_find?_none h).symm
  | some p => rfl

theorem cancelRestore_comm (c : Catalog) (a b : OrderItem) :
    cancelRestore (cancelRestore c a) b = cancelRestore (cancelRestore c b) a := by
  rw [cancelRestore_eq_updateFirst, cancelRestore_eq_updateFirst,
    cancelRestore_eq_updateFirst, cancelRestore_eq_updateFirst]
  apply updateFirst_comm
  · intro x; simp [restoreProduct_pid]
  · intro x; simp [restoreProduct_pid]
  · intro x; exact restoreProduct_comm b a x

theorem variantBump_cancel (s : String) (q : ℤ) (vs : List Variant) :
    updateFirst (fun v => v.sku = s) (fun v => { v with stock := v.stock + q })
      (updateFirst (fun v => v.sku = s)
        (fun v => { v with stock := v.stock - q }) vs) = vs := by
  induction vs with
  | nil => rfl
  | cons x xs ih =>
    obtain ⟨xsku, xprice, xstock⟩ := x
    by_cases hx : xsku = s
    · simp [updateFirst, hx, Variant.mk.injEq]
    · simp [updateFirst, hx, ih]

theorem restore_decrement (p : Product) (vsel : Option String) (q : ℤ)
    (st : ℤ) (pr : ℚ) (sk : String)
    (h : resolveLine p vsel = .ok (st, pr, sk)) (it : OrderItem)
    (hv : it.variant = vsel.map (fun _ => sk)) (hq : it.quantity = q) :
    restoreProduct it (decrementProduct vsel q p) = p := by
  cases vsel with
  | none =>
    simp only [Option.map_none'] at hv
    cases p
    simp [restoreProduct, decrementProduct, hv, hq, Product.mk.injEq]
  | some s =>
    simp only [Option.map_some'] at hv
    obtain ⟨pid, name, price, sku, iA, iS, sP, sS, sE, stk, sc, vars⟩ := p
    simp only [resolveLine] at h
    split at h
    next he =>
      have hvars : vars = [] := by simpa using he
      subst hvars
      simp only [Except.ok.injEq, Prod.mk.injEq] at h
      simp [restoreProduct, decrementProduct, hv, hq, updateFirst,
        Product.mk.injEq]
    next he =>
      split at h
      next hf => exact Except.noConfusion h
      next v hf =>
        simp only [Except.ok.injEq, Prod.mk.injEq] at h
        obtain ⟨-, -, hsk⟩ := h
        have hs : v.sku = s := by
          have := List.find?_some hf
          simpa using this
        have hsks : sk = s := hsk ▸ hs
        simp only [restoreProduct, decrementProduct, hv, hq, hsks]
        simp only [Product.mk.injEq, true_and]
        exact ⟨by omega, variantBump_cancel s q vars⟩

theorem processLine_cancelRestore {c c₁ : Catalog} {l : OrderLine}
    {it : OrderItem} (h : processLine c l = .ok (c₁, it)) :
    cancelRestore c₁ it = c := by
  simp only [processLine] at h
  split at h
  · exact Except.noConfusion h
  next p hf =>
    split at h
    · exact Except.noConfusion h
    split at h
    · exact Except.noConfusion h
    next st pr sk hr =>
      split at h
      · exact Except.noConfusion h
      simp only [Except.ok.injEq, Prod.mk.injEq] at h
      obtain ⟨hc, hit⟩ := h
      subst hc
      subst hit
      rw [cancelRestore_eq_updateFirst]
      rw [updateFirst_updateFirst c
        (fun x => by simp [decrementProduct_pid])]
      exact updateFirst_eq_self_of_find? hf
        (restore_decrement p l.variantSku l.quantity st pr sk hr _
          (by simp) rfl)

/-- Successful order assembly followed by the cancellation restore loop
is the identity on the catalog. -/
theorem processItems_cancelRestore :
    ∀ (lines : List OrderLine) (c c' : Catalog) (items : List OrderItem)
      (ip : ℚ), processItems lines c = (c', .ok (items, ip)) →
      items.foldl cancelRestore c' = c := by
  intro lines
  induction lines with
  | nil =>
    intro c c' items ip h
    simp only [processItems, Prod.mk.injEq, Except.ok.injEq] at h
    obtain ⟨rfl, rfl, -⟩ := h
    rfl
  | cons l ls ih =>
    intro c c' items ip h
    simp only [processItems] at h
    split at h
    next e hl => simp at h
    next c₁ it hl =>
      split at h
      next c₂ e hi => simp at h
      next c₂ its ip2 hi =>
        simp only [Prod.mk.injEq, Except.ok.injEq] at h
        obtain ⟨rfl, hits, -⟩ := h
        subst hits
        rw [List.foldl_cons,
          foldl_comm_move (fun c a b => cancelRestore_comm c a b),
          ih c₁ c₂ its ip2 hi, processLine_cancelRestore hl]

/-- When the order-assembly loop fails, the persisted catalog is exactly
the one produced by the successful prefix of the request, and the failing
line is the first one that errors. -/
theorem processItems_error_persists :
    ∀ (lines : List OrderLine) (c c' : Catalog) (e : OrderErr),
      processItems lines c = (c', .error e) →
      ∃ k, k < lines.length ∧
        (∃ items ip, processItems (lines.take k) c = (c', .ok (items, ip))) ∧
        (∃ l, lines.get? k = some l ∧ processLine c' l = .error e) := by
  intro lines
  induction lines with
  | nil =>
    intro c c' e h
    simp only [processItems, Prod.mk.injEq] at h
    exact absurd h.2 (by simp)
  | cons l ls ih =>
    intro c c' e h
    simp only [processItems] at h
    split at h
    next e' hl =>
      simp only [Prod.mk.injEq, Except.error.injEq] at h
      obtain ⟨rfl, rfl⟩ := h
      exact ⟨0, by simp, ⟨[], 0, rfl⟩, l, rfl, hl⟩
    next c₁ it hl =>
      split at h
      next c₂ e'' hi =>
        simp only [Prod.mk.injEq, Except.error.injEq] at h
        obtain ⟨rfl, rfl⟩ := h
        obtain ⟨k, hk, ⟨items, ip, hpre⟩, l', hl', hfail⟩ := ih c₁ c₂ e'' hi
        refine ⟨k + 1, by simpa using hk, ⟨it :: items, it.total + ip, ?_⟩,
          l', by simpa using hl', hfail⟩
        simp only [List.take_succ_cons, processItems, hl, hpre]
      next c₂ its ip2 hi => simp at h

/-! ## Claims -/

/-- C6, counterexample: the claim quantifies over every `maxDiscount`,
but the schema places no lower bound on `maxDiscount`; with
`maxDiscount = -5` (truthy in JS) a 10% coupon on a total of 100 is
clamped to the negative cap and `calculateDiscount` returns -5,
outside `[0, totalAmount]`. -/
theorem C6_counterexample :
    calculateDiscount fxCouponNeg 0 100 = .ok (-5) ∧ ¬(0 ≤ (-5 : ℚ)) := by
  constructor
  · decide
  · norm_num

/-- C6 (amended): for every coupon whose `discountValue` and
`minPurchase` are nonnegative (the schema enforces both) and whose
`maxDiscount` is unset or nonnegative (which the schema does NOT
enforce), every defined `calculateDiscount` result lies in
`[0, totalAmount]`. -/
theorem C6_amended (cp : Coupon) (now : ℤ) (t d : ℚ)
    (hval : 0 ≤ cp.discountValue) (hmin : 0 ≤ cp.minPurchase)
    (hcap : cp.maxDiscount = none ∨ ∃ m, cp.maxDiscount = some m ∧ 0 ≤ m)
    (h : calculateDiscount cp now t = .ok d) : 0 ≤ d ∧ d ≤ t := by
  simp only [calculateDiscount] at h
  split at h
  · exact Except.noConfusion h
  next hge =>
    split at h
    · exact Except.noConfusion h
    simp only [Except.ok.injEq] at h
    subst h
    rw [jsMin_eq_min]
    have ht : 0 ≤ t := le_trans hmin (not_lt.mp hge)
    have h0 : 0 ≤ t * cp.discountValue / 100 :=
      div_nonneg (mul_nonneg ht hval) (by norm_num)
    have hd : 0 ≤ (if cp.discountType = .percentage then
        match cp.maxDiscount with
        | some m => if m ≠ 0 ∧ t * cp.discountValue / 100 > m then m
                    else t * cp.discountValue / 100
        | none => t * cp.discountValue / 100
      else cp.discountValue) := by
      split
      · rcases hcap with hnone | ⟨m, hm, hm0⟩
        · simp only [hnone]
          exact h0
        · simp only [hm]
          split
          · exact hm0
          · exact h0
      · exact hval
    exact ⟨le_min hd ht, min_le_right _ _⟩

/-- C6, witness: the amended bound evaluated on the 20%-capped-at-30
coupon at totalAmount 200. -/
theorem C6_amended_witness :
    (0 : ℚ) ≤ fxCouponCap30.discountValue ∧
    (0 : ℚ) ≤ fxCouponCap30.minPurchase ∧
    calculateDiscount fxCouponCap30 0 200 = .ok 30 ∧
    (0 ≤ (30 : ℚ) ∧ (30 : ℚ) ≤ 200) :=
  ⟨by norm_num [fxCouponCap30], by norm_num [fxCouponCap30], by decide,
    C6_amended fxCouponCap30 0 200 30 (by norm_num [fxCouponCap30])
      (by norm_num [fxCouponCap30])
      (Or.inr ⟨30, rfl, by norm_num⟩) (by decide)⟩

/-- C7, counterexample: the claim says the `maxDiscount` clamp applies
for every set value including 0, but the JS guard
`this.maxDiscount && ...` treats a 0 cap as falsy and skips the clamp:
a 20% coupon with `maxDiscount = 0` on a total of 200 yields 40,
not 0. -/
theorem C7_counterexample :
    calculateDiscount fxCouponZeroCap 0 200 = .ok 40 ∧ (40 : ℚ) ≠ 0 := by
  constructor
  · decide
  · norm_num

/-- C7 (amended): for percentage coupons the discount is
`totalAmount × discountValue / 100`, clamped to `maxDiscount` only when
`maxDiscount` is set, nonzero (JS truthiness) and exceeded; a cap of
exactly 0 is ignored.  (The final `min` with `totalAmount` always
applies.) -/
theorem C7_amended (cp : Coupon) (now : ℤ) (t d : ℚ)
    (htype : cp.discountType = .percentage)
    (h : calculateDiscount cp now t = .ok d) :
    (∀ m, cp.maxDiscount = some m → m ≠ 0 → t * cp.discountValue / 100 > m →
        d = min m t) ∧
    (cp.maxDiscount = some 0 → d = min (t * cp.discountValue / 100) t) ∧
    (cp.maxDiscount = none → d = min (t * cp.discountValue / 100) t) ∧
    (∀ m, cp.maxDiscount = some m → ¬(t * cp.discountValue / 100 > m) →
        d = min (t * cp.discountValue / 100) t) := by
  simp only [calculateDiscount, htype, if_true] at h
  split at h
  · exact Except.noConfusion h
  split at h
  · exact Except.noConfusion h
  simp only [Except.ok.injEq] at h
  subst h
  refine ⟨?_, ?_, ?_, ?_⟩
  · intro m hm hm0 hgt
    simp only [hm]
    rw [if_pos ⟨hm0, hgt⟩, jsMin_eq_min]
  · intro hm
    simp only [hm]
    rw [if_neg (by simp), jsMin_eq_min]
  · intro hm
    simp only [hm]
    rw [jsMin_eq_min]
  · intro m hm hngt
    simp only [hm]
    rw [if_neg (by simp [hngt]), jsMin_eq_min]

/-- C7, witness: the spec's worked example — totalAmount 200, 20%,
cap 30 — evaluated through the amended characterization. -/
theorem C7_amended_witness :
    fxCouponCap30.discountType = .percentage ∧
    calculateDiscount fxCouponCap30 0 200 = .ok 30 ∧
    (30 : ℚ) = min 30 200 :=
  ⟨rfl, by decide,
    (C7_amended fxCouponCap30 0 200 30 rfl (by decide)).1 30 rfl
      (by norm_num) (by norm_num [fxCouponCap30])⟩

/-- C10: a coupon that is active, inside its validity window, and has a
positive usage limit passes the `getActiveCoupons` filter regardless of
`usedCount` (the filter tests `usageLimit > 0`, not
`usedCount < usageLimit`); once `usedCount` reaches the limit it is
nonetheless inactive (`isActiveNow = false`) and redeeming it fails with
`couponNotValid`. -/
theorem C10_activeCoupons_usageLimit (cps : List Coupon) (cp : Coupon)
    (now : ℤ) (u : ℤ) (t : ℚ) (hmem : cp ∈ cps) (hact : cp.isActive = true)
    (hs : cp.startDate ≤ now) (he : now ≤ cp.endDate)
    (hu : cp.usageLimit = some u) (hupos : 0 < u) :
    cp ∈ getActiveCoupons cps now ∧
    (u ≤ cp.usedCount →
      isActiveNow cp now = false ∧
      (cp.minPurchase ≤ t →
        calculateDiscount cp now t = .error .couponNotValid)) := by
  constructor
  · refine List.mem_filter.mpr ⟨hmem, ?_⟩
    simp [activeCouponFilter, hact, hs, he, hu, hupos]
  · intro hused
    have hnow : isActiveNow cp now = false := by
      simp [isActiveNow, hu]
      intro _ _ _
      omega
    refine ⟨hnow, fun hmin => ?_⟩
    simp only [calculateDiscount, hnow]
    rw [if_neg (not_lt.mpr hmin)]
    simp

/-- C1, counterexample: a two-line order whose second line exceeds stock
fails with `insufficientStock` naming the product, yet the first line's
stock decrement (10 → 9) and soldCount increment have already been
persisted — the claimed all-or-nothing behaviour does not hold. -/
theorem C1_counterexample :
    processItems [⟨1, none, 1⟩, ⟨2, none, 5⟩] [fxP1, fxP2] =
      ([⟨1, "P1", 3, "SKU1", true, false, none, none, none, 9, 1, []⟩, fxP2],
        .error (.insufficientStock "P2" 1)) ∧
    fxP1.stock = 10 ∧ (9 : ℤ) ≠ 10 := by
  refine ⟨by decide, rfl, by decide⟩

/-- C1 (amended): when order creation fails, the error still names the
product (`insufficientStock` carries the product name and available
stock), but the stock mutations of all lines processed before the first
failing line persist; only a request whose FIRST line fails — in
particular any single-line request — leaves the catalog unchanged. -/
theorem C1_amended :
    (∀ (lines : List OrderLine) (c c' : Catalog) (e : OrderErr),
        processItems lines c = (c', .error e) →
        ∃ k, k < lines.length ∧
          (∃ items ip, processItems (lines.take k) c = (c', .ok (items, ip))) ∧
          (∃ l, lines.get? k = some l ∧ processLine c' l = .error e)) ∧
    (∀ (l : OrderLine) (c c' : Catalog) (e : OrderErr),
        processItems [l] c = (c', .error e) → c' = c) := by
  refine ⟨processItems_error_persists, ?_⟩
  intro l c c' e h
  obtain ⟨k, hk, ⟨items, ip, hpre⟩, -⟩ := processItems_error_persists [l] c c' e h
  have hk0 : k = 0 := by simpa using hk
  subst hk0
  simp only [List.take_zero, processItems, Prod.mk.injEq, Except.ok.injEq] at hpre
  exact hpre.1.symm

/-- C1, witness: the amended single-line guarantee on a concrete
out-of-stock request. -/
theorem C1_amended_witness :
    processItems [OrderLine.mk 2 none 5] [fxP2] =
      ([fxP2], .error (.insufficientStock "P2" 1)) ∧
    ([fxP2] : Catalog) = [fxP2] :=
  ⟨by decide, C1_amended.2 ⟨2, none, 5⟩ [fxP2] [fxP2]
    (.insufficientStock "P2" 1) (by decide)⟩

/-- C2 (code bug): `createOrder` never consults the coupon entity — its
own comment reads "Here you would validate and apply coupon. For now,
we'll simulate a 10% discount".  On a $100 single-item order with code
"SAVE5" (a fixed $5 coupon), the code subtracts 10 (10% of itemsPrice)
while the Coupon Evaluator's `calculateDiscount` yields 5. -/
theorem C2_coupon_simulated :
    createOrder [fxGadget] [⟨1, none, 1⟩] (some "SAVE5") 0 =
      ([fxGadgetAfter], .ok fxOrderSave5) ∧
    fxOrderSave5.coupon = some ("SAVE5", 10) ∧
    fxOrderSave5.totalPrice = 98 ∧
    calculateDiscount fxCouponSave5 0 100 = .ok 5 ∧
    (10 : ℚ) ≠ 5 := by
  refine ⟨by decide, rfl, rfl, by decide, by norm_num⟩

/-- C3, counterexample: at a subtotal of exactly 50 the cart summary
charges the flat fee 10, not 0 — the code tests `subtotal > 50`
strictly. -/
theorem C3_counterexample :
    (getCartSummary [fxItem25] [⟨1, none, 2⟩]).subtotal = 50 ∧
    (getCartSummary [fxItem25] [⟨1, none, 2⟩]).shipping = 10 ∧
    (10 : ℚ) ≠ 0 := by
  refine ⟨by decide, by decide, by norm_num⟩

/-- C3 (amended): in both the cart summary and order creation the
shipping charge is 0 exactly when the subtotal strictly exceeds 50;
at a subtotal of exactly 50 the charge is the flat fee 10 (not 0, as
claimed), and at 49.99 it is 10. -/
theorem C3_amended :
    (∀ (c : Catalog) (items : List CartItem),
        (getCartSummary c items).shipping = 0 ↔
          50 < (getCartSummary c items).subtotal) ∧
    (∀ (c : Catalog) (lines : List OrderLine) (code : Option String)
        (now : ℤ) (c' : Catalog) (o : Order),
        createOrder c lines code now = (c', .ok o) →
        (o.shippingPrice = 0 ↔ 50 < o.itemsPrice)) ∧
    (getCartSummary [fxItem25] [⟨1, none, 2⟩]).subtotal = 50 ∧
    (getCartSummary [fxItem25] [⟨1, none, 2⟩]).shipping = 10 ∧
    (getCartSummary [fxItem4999] [⟨1, none, 1⟩]).subtotal = 4999 / 100 ∧
    (getCartSummary [fxItem4999] [⟨1, none, 1⟩]).shipping = 10 := by
  refine ⟨?_, ?_, by decide, by decide, by decide, by decide⟩
  · intro c items
    show (if (cartSubtotal c items).1 > 50 then (0 : ℚ) else 10) = 0 ↔
      50 < (cartSubtotal c items).1
    split_ifs with h
    · simp [h]
    · constructor
      · intro h0
        exact absurd h0 (by norm_num)
      · intro hlt
        exact absurd hlt h
  · intro c lines code now c' o h
    simp only [createOrder] at h
    split at h
    · simp at h
    split at h
    next c₂ e hp => simp at h
    next c₂ items ip hp =>
      simp only [Prod.mk.injEq, Except.ok.injEq] at h
      obtain ⟨-, ho⟩ := h
      subst ho
      show (if ip > 50 then (0 : ℚ) else 10) = 0 ↔ 50 < ip
      split_ifs with h
      · simp [h]
      · constructor
        · intro h0
          exact absurd h0 (by norm_num)
        · intro hlt
          exact absurd hlt h

/-- C3, witness: the order-creation boundary rule applied to a concrete
successful order. -/
theorem C3_amended_witness :
    createOrder [fxGadget] [⟨1, none, 1⟩] none 0 =
      ([fxGadgetAfter], .ok fxOrderGadget) ∧
    (fxOrderGadget.shippingPrice = 0 ↔ 50 < fxOrderGadget.itemsPrice) :=
  ⟨by decide, C3_amended.2.1 [fxGadget] [⟨1, none, 1⟩] none 0 [fxGadgetAfter]
    fxOrderGadget (by decide)⟩

/-- C4, counterexample: `fxSaleItem` is flagged on sale at 5 with a sale
window [0, 10] that is over at time 20, yet the cart read still charges
the sale price 5; the spec's resolution (sale price only inside the
window) gives the base price 20.  No pricing path consults the
window. -/
theorem C4_counterexample :
    fxSaleItem.isOnSale = true ∧ fxSaleItem.saleEnd = some 10 ∧
    cartLineView [fxSaleItem] ⟨1, none, 1⟩ = some ⟨5, 5, 1, true⟩ ∧
    specUnitPrice fxSaleItem none 20 = 20 ∧ (5 : ℚ) ≠ 20 := by
  refine ⟨rfl, rfl, by decide, by decide, by norm_num⟩

/-- C4 (amended): in the cart read the sale price applies whenever
`isOnSale` is set and the sale price is set and nonzero — the sale
window is never consulted, and the sale price also overrides a selected
variant's price; in order creation a matched variant's price wins over
the sale price, and a line without a variant uses
`currentPrice || price` (again without any window check). -/
theorem C4_amended :
    (∀ (p : Product) (vp v : ℚ), p.isOnSale = true → p.salePrice = some v →
        v ≠ 0 → cartSalePrice p vp = v) ∧
    (∀ (p : Product) (vp : ℚ),
        p.isOnSale = false ∨ p.salePrice = none ∨ p.salePrice = some 0 →
        cartSalePrice p vp = vp) ∧
    (∀ (p : Product) (s : String) (v : Variant) (st : ℤ) (pr : ℚ)
        (sk : String), resolveLine p (some s) = .ok (st, pr, sk) →
        p.variants.find? (fun x => x.sku = s) = some v → pr = v.price) ∧
    (∀ (p : Product) (st : ℤ) (pr : ℚ) (sk : String),
        resolveLine p none = .ok (st, pr, sk) →
        pr = jsOr (currentPrice p) p.price) := by
  refine ⟨?_, ?_, ?_, ?_⟩
  · intro p vp v h1 h2 h3
    simp [cartSalePrice, h2, h1, h3]
  · intro p vp h
    rcases h with h | h | h
    · cases hs : p.salePrice <;> simp [cartSalePrice, hs, h]
    · simp [cartSalePrice, h]
    · simp [cartSalePrice, h]
  · intro p s v st pr sk h hf
    simp only [resolveLine] at h
    split at h
    next he =>
      have hv : p.variants = [] := by simpa using he
      rw [hv] at hf
      exact absurd hf (by simp)
    next he =>
      rw [hf] at h
      simp only [Except.ok.injEq, Prod.mk.injEq] at h
      exact h.2.1.symm
  · intro p st pr sk h
    simp only [resolveLine, Except.ok.injEq, Prod.mk.injEq] at h
    exact h.2.1.symm

/-- C4, witness: the cart sale-price rule applied to the concrete
expired-window product. -/
theorem C4_amended_witness :
    fxSaleItem.isOnSale = true ∧ fxSaleItem.salePrice = some 5 ∧
    (5 : ℚ) ≠ 0 ∧ cartSalePrice fxSaleItem 20 = 5 :=
  ⟨rfl, rfl, by norm_num, C4_amended.1 fxSaleItem 20 5 rfl rfl (by norm_num)⟩

/-- C5, counterexample: the claimed hard `VariantNotFound` error on an
unmatched selector fails in two ways.  (a) A cart read whose line
selects the nonexistent variant SKU "X" does not fail: it silently
falls back to the product-level price (20) and stock.  (b) When the
product's variants list is empty, no variant matches the selector
either, yet add-to-cart and order creation also succeed, falling back
to the product-level price, stock and SKU (order creation even records
the product's own SKU on the line and bumps soldCount without touching
any variant stock). -/
theorem C5_counterexample :
    cartLineView [fxVarItem] ⟨1, some "X", 1⟩ = some ⟨20, 20, 1, true⟩ ∧
    fxVarItem.price = 20 ∧
    fxVarItem.variants.find? (fun v => v.sku = "X") = none ∧
    fxNoVarItem.variants.find? (fun v => v.sku = "X") = none ∧
    addToCartCheck [fxNoVarItem] 1 1 (some "X") = .ok (3, 20, "PSKU") ∧
    processLine [fxNoVarItem] ⟨1, some "X", 1⟩ =
      .ok ([⟨1, "Plain", 20, "PSKU", true, false, none, none, none, 3, 1, []⟩],
        ⟨1, "Plain", 20, 1, some "PSKU", "PSKU", 20⟩) := by
  refine ⟨by decide, rfl, by decide, by decide, by decide, by decide⟩

/-- C5 (amended): add-to-cart and order creation fail with
`VariantNotFound` on an unmatched selector only when the product's
variant list is nonempty; when the variants list is empty they silently
fall back to the product-level price, stock and SKU (succeeding whenever
the product stock covers the quantity); and the cart read never fails —
it silently keeps the product-level price and stock. -/
theorem C5_amended :
    (∀ (c : Catalog) (pid : ℕ) (q : ℤ) (s : String) (p : Product),
        List.find? (fun p' => p'.pid = pid) c = some p →
        p.isActive = true → p.variants ≠ [] →
        p.variants.find? (fun v => v.sku = s) = none →
        addToCartCheck c pid q (some s) = .error (.variantNotFound s)) ∧
    (∀ (c : Catalog) (l : OrderLine) (s : String) (p : Product),
        l.variantSku = some s →
        List.find? (fun p' => p'.pid = l.productId) c = some p →
        p.isActive = true → p.variants ≠ [] →
        p.variants.find? (fun v => v.sku = s) = none →
        processLine c l = .error (.variantNotFound s)) ∧
    (∀ (c : Catalog) (it : CartItem) (s : String) (p : Product),
        it.variantSku = some s →
        List.find? (fun p' => p'.pid = it.productId) c = some p →
        p.isActive = true →
        p.variants.find? (fun v => v.sku = s) = none →
        cartLineView c it = some ⟨cartSalePrice p p.price,
          cartSalePrice p p.price * (jsMin it.quantity p.stock),
          jsMin it.quantity p.stock,
          decide (0 < jsMin it.quantity p.stock)⟩) ∧
    (∀ (c : Catalog) (pid : ℕ) (q : ℤ) (s : String) (p : Product),
        List.find? (fun p' => p'.pid = pid) c = some p →
        p.isActive = true → p.variants = [] → ¬p.stock < q →
        addToCartCheck c pid q (some s) = .ok (p.stock, p.price, p.sku)) ∧
    (∀ (c : Catalog) (l : OrderLine) (s : String) (p : Product),
        l.variantSku = some s →
        List.find? (fun p' => p'.pid = l.productId) c = some p →
        p.isActive = true → p.variants = [] → ¬p.stock < l.quantity →
        processLine c l =
          .ok (updateFirst (fun p' => p'.pid = l.productId)
                 (decrementProduct l.variantSku l.quantity) c,
               ⟨l.productId, p.name, jsOr (currentPrice p) p.price,
                 l.quantity, some p.sku, p.sku,
                 jsOr (currentPrice p) p.price * l.quantity⟩)) := by
  refine ⟨?_, ?_, ?_, ?_, ?_⟩
  · intro c pid q s p hf hact hvars hnone
    have he : p.variants.isEmpty = false := by
      cases hv : p.variants with
      | nil => exact absurd hv hvars
      | cons a as => rfl
    simp [addToCartCheck, hf, hact, he, hnone]
  · intro c l s p hsel hf hact hvars hnone
    have he : p.variants.isEmpty = false := by
      cases hv : p.variants with
      | nil => exact absurd hv hvars
      | cons a as => rfl
    simp [processLine, hf, hact, hsel, resolveLine, he, hnone]
  · intro c it s p hsel hf hact hnone
    by_cases hv : p.variants.isEmpty
    · simp [cartLineView, hf, hact, hsel, hv]
    · simp [cartLineView, hf, hact, hsel, hv, hnone]
  · intro c pid q s p hf hact hv hq
    simp [addToCartCheck, hf, hact, hv, hq]
  · intro c l s p hsel hf hact hv hq
    simp [processLine, hf, hact, hsel, resolveLine, hv, hq]

/-- C5, witness: on a concrete unmatched SKU, the add-to-cart path
errors when the product has variants and silently succeeds with the
product-level values when it has none. -/
theorem C5_amended_witness :
    List.find? (fun p' => p'.pid = 1) [fxVarItem] = some fxVarItem ∧
    fxVarItem.isActive = true ∧ fxVarItem.variants ≠ [] ∧
    fxVarItem.variants.find? (fun v => v.sku = "X") = none ∧
    addToCartCheck [fxVarItem] 1 1 (some "X") =
      .error (.variantNotFound "X") ∧
    fxNoVarItem.variants = [] ∧ ¬fxNoVarItem.stock < 1 ∧
    addToCartCheck [fxNoVarItem] 1 1 (some "X") =
      .ok (fxNoVarItem.stock, fxNoVarItem.price, fxNoVarItem.sku) :=
  ⟨by decide, rfl, by decide, by decide,
    C5_amended.1 [fxVarItem] 1 1 "X" fxVarItem (by decide) rfl (by decide)
      (by decide),
    rfl, by decide,
    C5_amended.2.2.2.1 [fxNoVarItem] 1 1 "X" fxNoVarItem (by decide) rfl rfl
      (by decide)⟩

/-- C8: every accepted status change appends exactly one
`{status, timestamp, note}` record to `statusHistory` (earlier records
are preserved as a prefix, never rewritten or deleted); cancelling an
order in any state other than pending/confirmed — e.g. a shipped order —
is rejected with `invalidTransition` and changes nothing. -/
theorem C8_statusHistory :
    (∀ (o : Order) (s : OrderStatus) (now : ℤ), s ≠ o.orderStatus →
        (updateOrderStatus o s now).statusHistory = o.statusHistory ++
          [⟨s, now, if s = .cancelled then o.cancelledReason
                    else "Status updated"⟩]) ∧
    (∀ (c : Catalog) (o : Order) (reason : String) (now : ℤ),
        o.orderStatus = .pending ∨ o.orderStatus = .confirmed →
        ∃ c' o', cancelOrderOp c o reason now = .ok (c', o') ∧
          o'.statusHistory = o.statusHistory ++ [⟨.cancelled, now, reason⟩] ∧
          o'.orderStatus = .cancelled) ∧
    (∀ (c : Catalog) (o : Order) (reason : String) (now : ℤ),
        o.orderStatus ≠ .pending → o.orderStatus ≠ .confirmed →
        cancelOrderOp c o reason now = .error .invalidTransition) := by
  refine ⟨?_, ?_, ?_⟩
  · intro o s now hne
    simp only [updateOrderStatus, orderPreSave]
    split <;> simp [hne]
  · intro c o reason now h
    have hne : (OrderStatus.cancelled : OrderStatus) ≠ o.orderStatus := by
      rcases h with h | h <;> simp [h]
    refine ⟨o.items.foldl cancelRestore c,
      orderPreSave o.orderStatus
        { o with orderStatus := .cancelled, cancelledAt := some now,
                 cancelledReason := reason } now, ?_, ?_, ?_⟩
    · simp only [cancelOrderOp, if_pos h]
    · simp [orderPreSave, hne]
    · simp [orderPreSave, hne]
  · intro c o reason now h1 h2
    simp only [cancelOrderOp]
    rw [if_neg (fun hor => hor.elim h1 h2)]

/-- C8, witness: cancelling the concrete pending order appends exactly
the cancellation record. -/
theorem C8_statusHistory_witness :
    (fxOrderGadget.orderStatus = .pending ∨
      fxOrderGadget.orderStatus = .confirmed) ∧
    (∃ c' o', cancelOrderOp [fxGadgetAfter] fxOrderGadget "r" 5 =
        .ok (c', o') ∧
      o'.statusHistory =
        fxOrderGadget.statusHistory ++ [⟨.cancelled, 5, "r"⟩] ∧
      o'.orderStatus = .cancelled) :=
  ⟨Or.inl rfl,
    C8_statusHistory.2.1 [fxGadgetAfter] fxOrderGadget "r" 5 (Or.inl rfl)⟩

/-- C9: cancelling an order produced by a successful `createOrder`
restores the catalog exactly — every line's stock and soldCount return
to their pre-order values (the restore loop is the inverse of the
decrement loop) — and cancellation from any state other than pending or
confirmed is rejected with `invalidTransition` without touching
stock. -/
theorem C9_cancellation_inverts :
    (∀ (lines : List OrderLine) (c c' : Catalog) (items : List OrderItem)
        (ip : ℚ), processItems lines c = (c', .ok (items, ip)) →
        items.foldl cancelRestore c' = c) ∧
    (∀ (c : Catalog) (lines : List OrderLine) (code : Option String)
        (now : ℤ) (c' : Catalog) (o : Order) (reason : String) (t : ℤ),
        createOrder c lines code now = (c', .ok o) →
        ∃ o', cancelOrderOp c' o reason t = .ok (c, o')) ∧
    (∀ (c : Catalog) (o : Order) (reason : String) (t : ℤ),
        o.orderStatus ≠ .pending → o.orderStatus ≠ .confirmed →
        cancelOrderOp c o reason t = .error .invalidTransition) := by
  refine ⟨processItems_cancelRestore, ?_, ?_⟩
  · intro c lines code now c' o reason t h
    simp only [createOrder] at h
    split at h
    · simp at h
    split at h
    next c₂ e hp => simp at h
    next c₂ items ip hp =>
      simp only [Prod.mk.injEq, Except.ok.injEq] at h
      obtain ⟨hc, ho⟩ := h
      subst hc
      subst ho
      simp only [cancelOrderOp]
      simp only [true_or, if_true]
      rw [processItems_cancelRestore lines c c₂ items ip hp]
      exact ⟨_, rfl⟩
  · intro c o reason t h1 h2
    simp only [cancelOrderOp]
    rw [if_neg (fun hor => hor.elim h1 h2)]

/-- C9, witness: creating and then cancelling a concrete one-line order
returns the catalog to its original state. -/
theorem C9_cancellation_inverts_witness :
    createOrder [fxGadget] [⟨1, none, 1⟩] none 0 =
      ([fxGadgetAfter], .ok fxOrderGadget) ∧
    (∃ o', cancelOrderOp [fxGadgetAfter] fxOrderGadget "changed mind" 5 =
      .ok ([fxGadget], o')) :=
  ⟨by decide,
    C9_cancellation_inverts.2.1 [fxGadget] [⟨1, none, 1⟩] none 0
      [fxGadgetAfter] fxOrderGadget "changed mind" 5 (by decide)⟩

/-- C10, witness: the exhausted coupon `fxCouponUsed` (limit 5, used 5)
still appears in the active listing at time 50, yet is inactive and
unredeemable. -/
theorem C10_activeCoupons_usageLimit_witness :
    fxCouponUsed ∈ getActiveCoupons [fxCouponUsed] 50 ∧
    isActiveNow fxCouponUsed 50 = false ∧
    calculateDiscount fxCouponUsed 50 100 = .error .couponNotValid := by
  have h := C10_activeCoupons_usageLimit [fxCouponUsed] fxCouponUsed 50 5 100
    (by decide) rfl (by decide) (by decide) rfl (by decide)
  have h2 := h.2 (by decide)
  exact ⟨h.1, h2.1, h2.2 (by norm_num [fxCouponUsed])⟩

end Shop
